import Mathlib

/-!
Verification of the MiniRun container runtime (src/container_runtime.c).

The C program is embedded shallowly: each syscall whose outcome depends on
the host (access, mkdir, fopen/fprintf on cgroup files, malloc, clone,
chroot, chdir, mount, execl, waitpid, rmdir) is resolved by an explicit
environment record, and every function of the source becomes a pure Lean
function of that environment that returns its C result together with the
trace of externally visible actions it performed, and the updated cgroup
filesystem state where it mutates it.
-/

namespace MiniRun

/-- `ContainerConfig` from container_runtime.c: name, rootfs path, command,
memory limit in bytes, cpu limit as a percentage. -/
structure ContainerConfig where
  name : String
  rootfs_path : String
  command : String
  memory_limit : Int
  cpu_limit : Int
  deriving DecidableEq, Repr

/-- Externally visible actions of the program, in program order: a mkdir of a
cgroup directory, a write of a value to a cgroup file, the child opening the
cgroup membership file, chroot, chdir, mount, execl, and the parent removing
the cgroup directory (cleanup_cgroups call). -/
inductive Event where
  | mkdirE (path : String)
  | writeE (path : String) (value : String)
  | joinE (path : String)
  | chrootE (path : String)
  | chdirE (path : String)
  | mountE (src : String) (target : String)
  | execE (prog : String) (argv : List String)
  | cleanupE (name : String)
  deriving DecidableEq, Repr

/-- Outcome of one `write_cgroup_file` call: whether `fopen` succeeds and
whether the `fprintf` returns a nonnegative count. -/
structure WriteOutcome where
  openOk : Bool
  printfOk : Bool
  deriving DecidableEq, Repr

/-- `write_cgroup_file` from container_runtime.c: returns 0 on success and
-1 when the open fails or the fprintf reports an error. -/
def write_cgroup_file (w : WriteOutcome) : Int :=
  if w.openOk then (if w.printfOk then 0 else -1) else -1

/-- State of the host's cgroup-v2 hierarchy together with the outcome
oracles for the cgroup syscalls the program issues:
`controllersPresent` is whether `/sys/fs/cgroup/cgroup.controllers` exists
(the `access` check), `dirs` the existing cgroup directories, `busy` those
whose `rmdir` fails because member processes remain, `mkdirAllowed` whether
a `mkdir` of a fresh directory succeeds (otherwise it fails with an errno
other than EEXIST), and the three `WriteOutcome`s for the subtree-control,
memory.max and cpu.max writes. -/
structure CgroupFS where
  controllersPresent : Bool
  dirs : List String
  busy : List String
  mkdirAllowed : Bool
  subtreeW : WriteOutcome
  memW : WriteOutcome
  cpuW : WriteOutcome
  deriving DecidableEq, Repr

/-- The cgroup directory path the program derives from the container name:
`/sys/fs/cgroup/minirun-<name>`. -/
def cgroupPath (name : String) : String :=
  "/sys/fs/cgroup/minirun-" ++ name

/-- Result of `setup_cgroups`: the C return value (1 on success, 0 on
degraded mode), the cgroup filesystem afterwards, and the action trace. -/
structure SetupRes where
  success : Int
  fs : CgroupFS
  trace : List Event
  deriving DecidableEq, Repr

/-- `setup_cgroups` from container_runtime.c. It returns 0 immediately when
the cgroup.controllers file is absent; attempts mkdir of the group directory,
treating EEXIST (directory already in `dirs`) as reuse and any other mkdir
failure as a degraded return; writes `+cpu +memory` to the parent's
subtree_control ignoring the result; writes the memory ceiling and the CPU
quota/period pair, clearing `success` if either write fails. -/
def setup_cgroups (fs : CgroupFS) (container_name : String)
    (memory_limit_bytes : Int) (cpu_percent : Int) : SetupRes :=
  let cgroup_path := cgroupPath container_name
  if ¬ fs.controllersPresent then
    ⟨0, fs, []⟩
  else if cgroup_path ∉ fs.dirs ∧ ¬ fs.mkdirAllowed then
    ⟨0, fs, [Event.mkdirE cgroup_path]⟩
  else
    let fs1 := if cgroup_path ∈ fs.dirs then fs
               else { fs with dirs := cgroup_path :: fs.dirs }
    let memValue := toString memory_limit_bytes
    let cpu_max : Int := cpu_percent * 1000
    let cpu_period : Int := 100000
    let cpuValue := toString cpu_max ++ " " ++ toString cpu_period
    let memOk := write_cgroup_file fs.memW = 0
    let cpuOk := write_cgroup_file fs.cpuW = 0
    let success : Int := if memOk ∧ cpuOk then 1 else 0
    ⟨success, fs1,
      [Event.mkdirE cgroup_path,
       Event.writeE "/sys/fs/cgroup/cgroup.subtree_control" "+cpu +memory",
       Event.writeE (cgroup_path ++ "/memory.max") memValue,
       Event.writeE (cgroup_path ++ "/cpu.max") cpuValue]⟩

/-- `cleanup_cgroups` from container_runtime.c: a best-effort `rmdir` of the
group directory. ENOENT (directory absent) and any other failure (for
example EBUSY while member processes remain, modelled by `busy`) are
ignored; on success the directory is removed. The C function returns void,
so the embedding returns only the filesystem afterwards. -/
def cleanup_cgroups (fs : CgroupFS) (container_name : String) : CgroupFS :=
  let p := cgroupPath container_name
  if p ∈ fs.dirs ∧ p ∉ fs.busy then
    { fs with dirs := fs.dirs.filter (fun d => d != p) }
  else
    fs

/-- Outcomes of the syscalls issued inside the cloned child: opening and
writing the cgroup membership file, chroot, chdir (whose result line 272 of
the source discards), mount of /proc, and execl of /bin/bash; when the exec
succeeds the process becomes the target command and `commandStatus` is that
command's eventual exit status. -/
structure ChildEnv where
  joinOpenOk : Bool
  joinWriteOk : Bool
  chrootOk : Bool
  chdirOk : Bool
  mountOk : Bool
  execOk : Bool
  commandStatus : Nat
  deriving DecidableEq, Repr

/-- `child_function` from container_runtime.c: joins the cgroup
(best-effort), then chroots to the rootfs, returning 1 without exec on
chroot failure; then chdir to "/" with the result ignored, mounts /proc
(failure only warned about), and finally execl of /bin/bash with
["bash", "-c", command]. Returns the child's exit status and its trace. -/
def child_function (env : ChildEnv) (config : ContainerConfig) :
    Nat × List Event :=
  let procsPath := cgroupPath config.name ++ "/cgroup.procs"
  let joinT := [Event.joinE procsPath]
  if ¬ env.chrootOk then
    (1, joinT ++ [Event.chrootE config.rootfs_path])
  else
    let t := joinT ++
      [Event.chrootE config.rootfs_path,
       Event.chdirE "/",
       Event.mountE "proc" "/proc",
       Event.execE "/bin/bash" ["bash", "-c", config.command]]
    if env.execOk then (env.commandStatus, t) else (1, t)

/-- Outcomes of the parent-side allocation and spawn: the 1 MiB stack
malloc and the clone call. -/
structure ParentEnv where
  mallocOk : Bool
  cloneOk : Bool
  deriving DecidableEq, Repr

/-- Result of `main`: the process exit code, the cgroup filesystem after the
run, the child's exit status as observed by waitpid (none when no child was
spawned), and the action trace of the whole invocation. -/
structure MainRes where
  exitCode : Nat
  fs : CgroupFS
  childStatus : Option Nat
  trace : List Event
  deriving DecidableEq, Repr

/-- `main` from container_runtime.c over the argument vector (argv, with the
program name at index 0): usage error when argc < 4; builds the config with
the default limits of 512 MiB memory and 50 percent CPU; runs setup_cgroups
(a failure only produces a warning); returns 1 after cleanup when the stack
malloc or the clone fails; otherwise waits for the child and returns 0
after cleanup, whatever status the child reported. -/
def main (argv : List String) (fs : CgroupFS) (penv : ParentEnv)
    (cenv : ChildEnv) : MainRes :=
  if argv.length < 4 then
    ⟨1, fs, none, []⟩
  else
    let config : ContainerConfig :=
      { name := argv.getD 1 ""
        rootfs_path := argv.getD 2 ""
        command := argv.getD 3 ""
        memory_limit := 512 * 1024 * 1024
        cpu_limit := 50 }
    let s := setup_cgroups fs config.name config.memory_limit config.cpu_limit
    if ¬ penv.mallocOk then
      ⟨1, cleanup_cgroups s.fs config.name, none,
        s.trace ++ [Event.cleanupE config.name]⟩
    else if ¬ penv.cloneOk then
      ⟨1, cleanup_cgroups s.fs config.name, none,
        s.trace ++ [Event.cleanupE config.name]⟩
    else
      let c := child_function cenv config
      ⟨0, cleanup_cgroups s.fs config.name, some c.1,
        s.trace ++ c.2 ++ [Event.cleanupE config.name]⟩

/-- Number of cleanup_cgroups calls for `name` recorded in a trace. -/
def countCleanup (name : String) : List Event → Nat
  | [] => 0
  | Event.cleanupE n :: t => (if n = name then 1 else 0) + countCleanup name t
  | _ :: t => countCleanup name t

/-- `a` occurs strictly before `b` in the trace `t`. -/
def precedes (a b : Event) (t : List Event) : Prop :=
  ∃ l1 l2 l3, t = l1 ++ a :: (l2 ++ b :: l3)

/-! Helper lemmas shared by several claims. -/

theorem countCleanup_append (name : String) (t1 t2 : List Event) :
    countCleanup name (t1 ++ t2) = countCleanup name t1 + countCleanup name t2 := by
  induction t1 with
  | nil => simp [countCleanup]
  | cons e t ih => cases e <;> simp [countCleanup, ih, Nat.add_assoc]

theorem countCleanup_setup (name n : String) (fs : CgroupFS) (m p : Int) :
    countCleanup name (setup_cgroups fs n m p).trace = 0 := by
  simp only [setup_cgroups]
  split_ifs <;> simp [countCleanup]

theorem countCleanup_child (name : String) (cenv : ChildEnv)
    (config : ContainerConfig) :
    countCleanup name (child_function cenv config).2 = 0 := by
  unfold child_function
  split
  · simp [countCleanup]
  · split <;> simp [countCleanup]

/-- C2: on every path of `main` on which resource-group provisioning was
attempted (that is, the argument check passed) — normal child exit, malloc
failure of the launch stack, and clone failure — `cleanup_cgroups` is
invoked exactly once for the container's name before the process
terminates. -/
theorem C2_cleanup_exactly_once (argv : List String) (fs : CgroupFS)
    (penv : ParentEnv) (cenv : ChildEnv) (h : 4 ≤ argv.length) :
    countCleanup (argv.getD 1 "") (main argv fs penv cenv).trace = 1 := by
  unfold main
  rw [if_neg (by omega)]
  by_cases hm : penv.mallocOk = true
  · by_cases hc : penv.cloneOk = true
    · simp [hm, hc, countCleanup_append, countCleanup_setup, countCleanup_child,
        countCleanup]
    · simp [hm, hc, countCleanup_append, countCleanup_setup, countCleanup]
  · simp [hm, countCleanup_append, countCleanup_setup, countCleanup]

/-- C2 witness at a concrete invocation. -/
theorem C2_cleanup_exactly_once_witness :
    countCleanup "t1"
      (main ["minirun", "t1", "/containers/rootfs", "/bin/true"]
        ⟨true, [], [], true, ⟨true, true⟩, ⟨true, true⟩, ⟨true, true⟩⟩
        ⟨true, true⟩ ⟨true, true, true, true, true, true, 0⟩).trace = 1 := by
  exact C2_cleanup_exactly_once
    ["minirun", "t1", "/containers/rootfs", "/bin/true"] _ _ _ (by decide)

/-- C3: whenever `setup_cgroups` reaches the limit-configuration phase (the
hierarchy is available and the mkdir succeeded or hit EEXIST), it writes to
the group's cpu.max file the string `<quota> <period>` with quota equal to
`cpu_percent * 1000` microseconds and the period fixed at 100000
microseconds; for 50 percent that string is exactly "50000 100000" and for
100 percent exactly "100000 100000". -/
theorem C3_cpu_quota_period (fs : CgroupFS) (name : String) (m p : Int)
    (hc : fs.controllersPresent = true)
    (hm : cgroupPath name ∈ fs.dirs ∨ fs.mkdirAllowed = true) :
    Event.writeE (cgroupPath name ++ "/cpu.max")
        (toString (p * 1000) ++ " " ++ toString (100000 : Int))
      ∈ (setup_cgroups fs name m p).trace
    ∧ toString ((50 : Int) * 1000) ++ " " ++ toString (100000 : Int)
        = "50000 100000"
    ∧ toString ((100 : Int) * 1000) ++ " " ++ toString (100000 : Int)
        = "100000 100000" := by
  refine ⟨?_, by decide, by decide⟩
  unfold setup_cgroups
  rw [if_neg (by simp [hc])]
  rw [if_neg (by rcases hm with h | h <;> simp [h])]
  simp

/-- C3 witness at a concrete filesystem and 50 percent CPU. -/
theorem C3_cpu_quota_period_witness :
    Event.writeE (cgroupPath "t1" ++ "/cpu.max")
        (toString ((50 : Int) * 1000) ++ " " ++ toString (100000 : Int))
      ∈ (setup_cgroups
          ⟨true, [], [], true, ⟨true, true⟩, ⟨true, true⟩, ⟨true, true⟩⟩
          "t1" 536870912 50).trace :=
  (C3_cpu_quota_period _ "t1" 536870912 50 rfl (Or.inr rfl)).1

/-- The exit code of `main` depends only on the argument count and on the
malloc and clone outcomes: the child's status and everything in the cgroup
filesystem are never consulted. -/
theorem main_exitCode_cases (argv : List String) (fs : CgroupFS)
    (penv : ParentEnv) (cenv : ChildEnv) :
    (main argv fs penv cenv).exitCode =
      if argv.length < 4 ∨ penv.mallocOk = false ∨ penv.cloneOk = false
      then 1 else 0 := by
  unfold main
  by_cases h4 : argv.length < 4
  · simp [h4]
  · by_cases hm : penv.mallocOk = true
    · by_cases hc : penv.cloneOk = true
      · simp [h4, hm, hc]
      · simp [h4, hm, hc]
    · simp [h4, hm]

/-- The child status `main` observes on the successfully spawned path. -/
theorem main_childStatus_cases (argv : List String) (fs : CgroupFS)
    (penv : ParentEnv) (cenv : ChildEnv)
    (h4 : 4 ≤ argv.length) (hm : penv.mallocOk = true)
    (hc : penv.cloneOk = true) :
    (main argv fs penv cenv).childStatus =
      some (child_function cenv
        { name := argv.getD 1 ""
          rootfs_path := argv.getD 2 ""
          command := argv.getD 3 ""
          memory_limit := 512 * 1024 * 1024
          cpu_limit := 50 }).1 := by
  unfold main
  rw [if_neg (by omega)]
  simp [hm, hc]

/-- Concrete runs used as witnesses and counterexamples: a cgroup
filesystem with the v2 hierarchy available and all writes succeeding, an
all-success parent and child environment, and a standard argument vector. -/
def fsAvail : CgroupFS :=
  ⟨true, [], [], true, ⟨true, true⟩, ⟨true, true⟩, ⟨true, true⟩⟩

/-- All parent-side allocations succeed. -/
def penvGood : ParentEnv := ⟨true, true⟩

/-- All child-side syscalls succeed and the target command exits 0. -/
def cenvGood : ChildEnv := ⟨true, true, true, true, true, true, 0⟩

/-- A standard argument vector: program name, container name, rootfs,
command. -/
def argvStd : List String := ["minirun", "t1", "/containers/rootfs", "/bin/true"]

/-- C1 counterexample: with an invalid rootfs (the chroot fails) the child
exits with status 1 and the parent performs cleanup, but the supervisor's
overall exit code is 0, not non-zero as the claim states — `main` never
consults the status collected by waitpid. -/
theorem C1_counterexample :
    (main argvStd fsAvail penvGood
        { cenvGood with chrootOk := false }).childStatus = some 1
    ∧ countCleanup "t1"
        (main argvStd fsAvail penvGood
          { cenvGood with chrootOk := false }).trace = 1
    ∧ (main argvStd fsAvail penvGood
        { cenvGood with chrootOk := false }).exitCode = 0 := by
  refine ⟨rfl, ?_, rfl⟩
  decide

/-- C1 (amended): the supervisor exits 1 on configuration, malloc or clone
failure, but once the child has been spawned it always returns 0 whatever
the child's exit status: given an invalid rootfs the child exits non-zero
and the parent completes cleanup, yet the overall status is still 0. -/
theorem C1_exit_code_amended (argv : List String) (fs : CgroupFS)
    (penv : ParentEnv) (cenv : ChildEnv)
    (h4 : 4 ≤ argv.length) (hm : penv.mallocOk = true)
    (hc : penv.cloneOk = true) :
    (main argv fs penv cenv).exitCode = 0
    ∧ countCleanup (argv.getD 1 "") (main argv fs penv cenv).trace = 1
    ∧ (cenv.chrootOk = false →
        (main argv fs penv cenv).childStatus = some 1) := by
  refine ⟨?_, ?_, ?_⟩
  · rw [main_exitCode_cases]
    simp [hm, hc, Nat.not_lt.mpr h4]
  · unfold main
    rw [if_neg (by omega)]
    simp [hm, hc, countCleanup_append, countCleanup_setup, countCleanup_child,
      countCleanup]
  · intro hr
    rw [main_childStatus_cases argv fs penv cenv h4 hm hc]
    unfold child_function
    simp [hr]

/-- C1 witness: the amended theorem applied at a concrete invocation with a
failing chroot. -/
theorem C1_exit_code_amended_witness :
    (main argvStd fsAvail penvGood
        { cenvGood with chrootOk := false }).exitCode = 0
    ∧ (main argvStd fsAvail penvGood
        { cenvGood with chrootOk := false }).childStatus = some 1 := by
  have h := C1_exit_code_amended argvStd fsAvail penvGood
    { cenvGood with chrootOk := false } (by decide) rfl rfl
  exact ⟨h.1, h.2.2 rfl⟩

/-- C8: resource-group removal is idempotent and never fatal: running
`cleanup_cgroups` a second time after the group was already removed is a
no-op, removing a group that was never created is a no-op, and no outcome
of cleanup (here: whether the rmdir succeeds or fails because member
processes keep the directory busy) ever changes the invocation's exit code
or the child status it observed. -/
theorem C8_cleanup_idempotent (fs : CgroupFS) (name : String)
    (argv : List String) (penv : ParentEnv) (cenv : ChildEnv)
    (b1 b2 : List String) :
    cleanup_cgroups (cleanup_cgroups fs name) name = cleanup_cgroups fs name
    ∧ (cgroupPath name ∉ fs.dirs → cleanup_cgroups fs name = fs)
    ∧ (main argv { fs with busy := b1 } penv cenv).exitCode
        = (main argv { fs with busy := b2 } penv cenv).exitCode
    ∧ (main argv { fs with busy := b1 } penv cenv).childStatus
        = (main argv { fs with busy := b2 } penv cenv).childStatus := by
  refine ⟨?_, ?_, ?_, ?_⟩
  · by_cases h1 : cgroupPath name ∈ fs.dirs
    · by_cases h2 : cgroupPath name ∈ fs.busy
      · simp [cleanup_cgroups, h1, h2]
      · have hgone : cgroupPath name ∉
            (fs.dirs.filter (fun d => d != cgroupPath name)) := by
          simp [List.mem_filter]
        simp only [cleanup_cgroups, h1, h2]
        simp [hgone]
    · simp [cleanup_cgroups, h1]
  · intro h
    simp [cleanup_cgroups, h]
  · rw [main_exitCode_cases, main_exitCode_cases]
  · by_cases h4 : argv.length < 4
    · unfold main
      simp [h4]
    · by_cases hm : penv.mallocOk = true
      · by_cases hc : penv.cloneOk = true
        · rw [main_childStatus_cases _ _ _ _ (by omega) hm hc,
            main_childStatus_cases _ _ _ _ (by omega) hm hc]
        · unfold main
          simp [h4, hm, hc]
      · unfold main
        simp [h4, hm]

/-- C8 witness: a concrete group that exists and is not busy — removing it
twice equals removing it once, and a missing group is untouched. -/
theorem C8_cleanup_idempotent_witness :
    cleanup_cgroups
        (cleanup_cgroups
          { fsAvail with dirs := [cgroupPath "t1"] } "t1") "t1"
      = cleanup_cgroups { fsAvail with dirs := [cgroupPath "t1"] } "t1"
    ∧ cleanup_cgroups fsAvail "t1" = fsAvail := by
  have h := C8_cleanup_idempotent { fsAvail with dirs := [cgroupPath "t1"] }
    "t1" argvStd penvGood cenvGood [] []
  have h2 := C8_cleanup_idempotent fsAvail "t1" argvStd penvGood cenvGood [] []
  exact ⟨h.1, h2.2.1 (by decide)⟩

/-- C9 counterexample: an invocation whose `name` parameter is the empty
string is not rejected as a configuration error: the run proceeds past
argument checking, creates the cgroup directory `/sys/fs/cgroup/minirun-`
(a kernel resource is touched), performs cleanup, and exits 0. -/
theorem C9_counterexample :
    (main ["minirun", "", "/containers/rootfs", "/bin/true"]
        fsAvail penvGood cenvGood).exitCode = 0
    ∧ Event.mkdirE "/sys/fs/cgroup/minirun-"
        ∈ (main ["minirun", "", "/containers/rootfs", "/bin/true"]
            fsAvail penvGood cenvGood).trace
    ∧ countCleanup ""
        (main ["minirun", "", "/containers/rootfs", "/bin/true"]
          fsAvail penvGood cenvGood).trace = 1 := by
  refine ⟨rfl, ?_, ?_⟩ <;> decide

/-- C9 (amended): only an invocation with fewer than three positional
parameters is rejected as a configuration error: `main` then returns exit
code 1 with an empty action trace (no kernel resource touched, no cleanup)
and the cgroup filesystem unchanged. An empty `name` string is not
validated and the run proceeds to provisioning with it. -/
theorem C9_missing_args_config_error (argv : List String) (fs : CgroupFS)
    (penv : ParentEnv) (cenv : ChildEnv) (h : argv.length < 4) :
    main argv fs penv cenv = ⟨1, fs, none, []⟩ := by
  unfold main
  simp [h]

/-- C9 witness: a one-argument invocation is rejected before touching
anything. -/
theorem C9_missing_args_config_error_witness :
    main ["minirun"] fsAvail penvGood cenvGood = ⟨1, fsAvail, none, []⟩ :=
  C9_missing_args_config_error ["minirun"] fsAvail penvGood cenvGood
    (by decide)

/-- C4: when the hierarchy's controller-enablement file
`/sys/fs/cgroup/cgroup.controllers` is absent, `setup_cgroups` returns 0
(degraded mode) without creating a group directory or touching anything,
and the container still launches: the child joins, confines, mounts, execs,
and exits with the target command's own status, while the supervisor
completes normally. -/
theorem C4_degraded_mode (fs : CgroupFS) (name : String) (m p : Int)
    (argv : List String) (penv : ParentEnv) (cenv : ChildEnv)
    (hctl : fs.controllersPresent = false)
    (h4 : 4 ≤ argv.length) (hm : penv.mallocOk = true)
    (hc : penv.cloneOk = true) (hr : cenv.chrootOk = true)
    (he : cenv.execOk = true) :
    setup_cgroups fs name m p = ⟨0, fs, []⟩
    ∧ (main argv fs penv cenv).childStatus = some cenv.commandStatus
    ∧ Event.execE "/bin/bash" ["bash", "-c", argv.getD 3 ""]
        ∈ (main argv fs penv cenv).trace
    ∧ (main argv fs penv cenv).exitCode = 0 := by
  refine ⟨?_, ?_, ?_, ?_⟩
  · unfold setup_cgroups
    simp [hctl]
  · rw [main_childStatus_cases _ _ _ _ h4 hm hc]
    unfold child_function
    simp [hr, he]
  · unfold main
    rw [if_neg (by omega)]
    simp only [hm, hc]
    unfold child_function
    simp [hr, he]
  · rw [main_exitCode_cases]
    simp [hm, hc, Nat.not_lt.mpr h4]

/-- C4 witness: hierarchy unavailable, command exits 7 — the child status
is 7 and the supervisor still completes. -/
theorem C4_degraded_mode_witness :
    setup_cgroups { fsAvail with controllersPresent := false }
        "t1" 536870912 50 = ⟨0, { fsAvail with controllersPresent := false }, []⟩
    ∧ (main argvStd { fsAvail with controllersPresent := false } penvGood
        { cenvGood with commandStatus := 7 }).childStatus = some 7 := by
  have h := C4_degraded_mode { fsAvail with controllersPresent := false }
    "t1" 536870912 50 argvStd penvGood { cenvGood with commandStatus := 7 }
    rfl (by decide) rfl rfl rfl rfl
  exact ⟨h.1, h.2.1⟩

/-- C5: with the hierarchy available, a mkdir collision with an existing
group directory is treated as reuse — the filesystem is left as it was and
both limit writes are still attempted; and whenever the hierarchy is
available and the directory exists or can be created, the function returns
0 (degraded) if either the memory write or the CPU write fails, while the
group directory is present in the resulting filesystem for the caller's
later membership join and cleanup. -/
theorem C5_collision_reuse_and_write_failures (fs : CgroupFS) (name : String)
    (m p : Int) (hctl : fs.controllersPresent = true) :
    (cgroupPath name ∈ fs.dirs →
      (setup_cgroups fs name m p).fs = fs
      ∧ Event.writeE (cgroupPath name ++ "/memory.max") (toString m)
          ∈ (setup_cgroups fs name m p).trace
      ∧ Event.writeE (cgroupPath name ++ "/cpu.max")
          (toString (p * 1000) ++ " " ++ toString (100000 : Int))
          ∈ (setup_cgroups fs name m p).trace)
    ∧ ((cgroupPath name ∈ fs.dirs ∨ fs.mkdirAllowed = true) →
        ((write_cgroup_file fs.memW ≠ 0 ∨ write_cgroup_file fs.cpuW ≠ 0) →
          (setup_cgroups fs name m p).success = 0)
        ∧ cgroupPath name ∈ (setup_cgroups fs name m p).fs.dirs) := by
  constructor
  · intro hmem
    unfold setup_cgroups
    rw [if_neg (by simp [hctl])]
    rw [if_neg (by simp [hmem])]
    simp [hmem]
  · intro hok
    unfold setup_cgroups
    rw [if_neg (by simp [hctl])]
    rw [if_neg (by rcases hok with h | h <;> simp [h])]
    constructor
    · intro hw
      rcases hw with h | h <;> simp [h]
    · by_cases hmem : cgroupPath name ∈ fs.dirs <;> simp [hmem]

/-- C5 witness: the directory already exists and the memory write fails —
setup returns 0, the filesystem is unchanged, and the directory is still
there for cleanup. -/
theorem C5_collision_reuse_and_write_failures_witness :
    (setup_cgroups
        { fsAvail with dirs := [cgroupPath "t1"], memW := ⟨false, false⟩ }
        "t1" 536870912 50).fs
      = { fsAvail with dirs := [cgroupPath "t1"], memW := ⟨false, false⟩ }
    ∧ (setup_cgroups
        { fsAvail with dirs := [cgroupPath "t1"], memW := ⟨false, false⟩ }
        "t1" 536870912 50).success = 0
    ∧ cgroupPath "t1" ∈ (setup_cgroups
        { fsAvail with dirs := [cgroupPath "t1"], memW := ⟨false, false⟩ }
        "t1" 536870912 50).fs.dirs := by
  have h := C5_collision_reuse_and_write_failures
    { fsAvail with dirs := [cgroupPath "t1"], memW := ⟨false, false⟩ }
    "t1" 536870912 50 rfl
  have h1 := h.1 (by decide)
  have h2 := h.2 (Or.inl (by decide))
  exact ⟨h1.1, h2.1 (Or.inl (by decide)), h2.2⟩

/-- C6: inside the spawned child the steps occur in strict order — cgroup
membership join, then chroot confinement, then the /proc mount, then the
exec of the target command; the mount and the exec only ever happen after
the chroot succeeded. -/
theorem C6_child_step_order (cenv : ChildEnv) (config : ContainerConfig) :
    precedes (Event.joinE (cgroupPath config.name ++ "/cgroup.procs"))
        (Event.chrootE config.rootfs_path)
        (child_function cenv config).2
    ∧ (cenv.chrootOk = true →
        precedes (Event.chrootE config.rootfs_path)
            (Event.mountE "proc" "/proc") (child_function cenv config).2
        ∧ precedes (Event.mountE "proc" "/proc")
            (Event.execE "/bin/bash" ["bash", "-c", config.command])
            (child_function cenv config).2)
    ∧ (cenv.chrootOk = false →
        (∀ s d, Event.mountE s d ∉ (child_function cenv config).2)
        ∧ (∀ pr a, Event.execE pr a ∉ (child_function cenv config).2)) := by
  by_cases hr : cenv.chrootOk = true
  · have ht : (child_function cenv config).2 =
        [Event.joinE (cgroupPath config.name ++ "/cgroup.procs"),
         Event.chrootE config.rootfs_path,
         Event.chdirE "/",
         Event.mountE "proc" "/proc",
         Event.execE "/bin/bash" ["bash", "-c", config.command]] := by
      unfold child_function
      by_cases he : cenv.execOk = true <;> simp [hr, he]
    refine ⟨?_, fun _ => ⟨?_, ?_⟩, fun hcon => by simp [hcon] at hr⟩
    · exact ⟨[], [],
        [Event.chdirE "/", Event.mountE "proc" "/proc",
         Event.execE "/bin/bash" ["bash", "-c", config.command]], by simp [ht]⟩
    · exact ⟨[Event.joinE (cgroupPath config.name ++ "/cgroup.procs")],
        [Event.chdirE "/"],
        [Event.execE "/bin/bash" ["bash", "-c", config.command]], by simp [ht]⟩
    · exact ⟨[Event.joinE (cgroupPath config.name ++ "/cgroup.procs"),
        Event.chrootE config.rootfs_path, Event.chdirE "/"], [], [],
        by simp [ht]⟩
  · have ht : (child_function cenv config).2 =
        [Event.joinE (cgroupPath config.name ++ "/cgroup.procs"),
         Event.chrootE config.rootfs_path] := by
      unfold child_function
      simp [hr]
    refine ⟨⟨[], [], [], by simp [ht]⟩, fun hcon => absurd hcon hr, fun _ => ?_⟩
    rw [ht]
    exact ⟨fun s d => by simp, fun pr a => by simp⟩

/-- C6 witness: the full ordered trace on an all-success child. -/
theorem C6_child_step_order_witness :
    precedes (Event.joinE (cgroupPath "t1" ++ "/cgroup.procs"))
        (Event.chrootE "/containers/rootfs")
        (child_function cenvGood
          ⟨"t1", "/containers/rootfs", "/bin/true", 536870912, 50⟩).2
    ∧ precedes (Event.mountE "proc" "/proc")
        (Event.execE "/bin/bash" ["bash", "-c", "/bin/true"])
        (child_function cenvGood
          ⟨"t1", "/containers/rootfs", "/bin/true", 536870912, 50⟩).2 := by
  have h := C6_child_step_order cenvGood
    ⟨"t1", "/containers/rootfs", "/bin/true", 536870912, 50⟩
  exact ⟨h.1, (h.2.1 rfl).2⟩

/-- C7 counterexample: the source checks only the chroot result and
discards the result of the working-directory change (`chdir("/")` on line
272). In a run where the root switch succeeds but the working-directory
switch fails, the child still execs the target command and exits with the
command's status 0 — it does not return a non-zero failure status. -/
theorem C7_counterexample :
    ({ cenvGood with chdirOk := false } : ChildEnv).chdirOk = false
    ∧ (child_function { cenvGood with chdirOk := false }
        ⟨"t1", "/containers/rootfs", "/bin/true", 536870912, 50⟩).1 = 0
    ∧ Event.execE "/bin/bash" ["bash", "-c", "/bin/true"]
        ∈ (child_function { cenvGood with chdirOk := false }
            ⟨"t1", "/containers/rootfs", "/bin/true", 536870912, 50⟩).2 := by
  refine ⟨rfl, rfl, ?_⟩
  decide

/-- C7 (amended): confinement switches the root to `rootfs_path` and then
changes the working directory to the new root, but only the root switch is
checked: when the chroot fails the entry point returns status 1 without
ever attempting the exec, while a failure of the working-directory change
is silently ignored. -/
theorem C7_chroot_fatal (cenv : ChildEnv) (config : ContainerConfig)
    (h : cenv.chrootOk = false) :
    (child_function cenv config).1 = 1
    ∧ (∀ pr a, Event.execE pr a ∉ (child_function cenv config).2)
    ∧ Event.chrootE config.rootfs_path ∈ (child_function cenv config).2 := by
  have ht : child_function cenv config =
      (1, [Event.joinE (cgroupPath config.name ++ "/cgroup.procs"),
           Event.chrootE config.rootfs_path]) := by
    unfold child_function
    simp [h]
  rw [ht]
  exact ⟨rfl, fun pr a => by simp, by simp⟩

/-- C7 witness: a failing chroot at a concrete configuration. -/
theorem C7_chroot_fatal_witness :
    (child_function { cenvGood with chrootOk := false }
        ⟨"t1", "/containers/rootfs", "/bin/true", 536870912, 50⟩).1 = 1
    ∧ Event.chrootE "/containers/rootfs"
        ∈ (child_function { cenvGood with chrootOk := false }
            ⟨"t1", "/containers/rootfs", "/bin/true", 536870912, 50⟩).2 := by
  have h := C7_chroot_fatal { cenvGood with chrootOk := false }
    ⟨"t1", "/containers/rootfs", "/bin/true", 536870912, 50⟩ rfl
  exact ⟨h.1, h.2.2⟩

/-- C10: after a successful confinement the final image replacement is
always an execl of `/bin/bash` with argument vector ["bash", "-c",
command] — never of the command itself — and it is the only exec the child
ever attempts; when that execl fails (for instance the confined root has
no /bin/bash) the child exits with status 1 whatever the command names. -/
theorem C10_exec_bash_dash_c (cenv : ChildEnv) (config : ContainerConfig)
    (hr : cenv.chrootOk = true) :
    Event.execE "/bin/bash" ["bash", "-c", config.command]
      ∈ (child_function cenv config).2
    ∧ (cenv.execOk = false → (child_function cenv config).1 = 1)
    ∧ (∀ pr a, Event.execE pr a ∈ (child_function cenv config).2 →
        pr = "/bin/bash" ∧ a = ["bash", "-c", config.command]) := by
  have ht : (child_function cenv config).2 =
      [Event.joinE (cgroupPath config.name ++ "/cgroup.procs"),
       Event.chrootE config.rootfs_path,
       Event.chdirE "/",
       Event.mountE "proc" "/proc",
       Event.execE "/bin/bash" ["bash", "-c", config.command]] := by
    unfold child_function
    by_cases he : cenv.execOk = true <;> simp [hr, he]
  refine ⟨by simp [ht], ?_, ?_⟩
  · intro he
    unfold child_function
    simp [hr, he]
  · intro pr a hmem
    rw [ht] at hmem
    simp at hmem
    exact ⟨hmem.1, hmem.2⟩

/-- C10 witness: a confined root without /bin/bash (the execl fails) while
the command names a program that exists — the child still exits 1 and the
only exec attempted was of /bin/bash. -/
theorem C10_exec_bash_dash_c_witness :
    Event.execE "/bin/bash" ["bash", "-c", "/bin/true"]
      ∈ (child_function { cenvGood with execOk := false }
          ⟨"t1", "/containers/rootfs", "/bin/true", 536870912, 50⟩).2
    ∧ (child_function { cenvGood with execOk := false }
        ⟨"t1", "/containers/rootfs", "/bin/true", 536870912, 50⟩).1 = 1 := by
  have h := C10_exec_bash_dash_c { cenvGood with execOk := false }
    ⟨"t1", "/containers/rootfs", "/bin/true", 536870912, 50⟩ rfl
  exact ⟨h.1, h.2.1 rfl⟩

end MiniRun
